import Mathlib

/-!
Verification of the Default Audio Device Manager (src/audio_switcher.py).

The Python source is shallowly embedded below: each Lean definition mirrors
one Python function or method.  OS-level inputs (the list returned by
`AudioUtilities.GetAllDevices()`, the current default endpoint id, the COM
policy-configuration object, the preferences file) are passed in explicitly;
a Python exception raised by an OS call is modelled with `Except Unit` /
`Option`, and a `try ... except: pass` block is embedded as an explicit
catch on that value.
-/

/-- One entry of the list returned by `AudioUtilities.GetAllDevices()`, as
the fields `_refresh_devices` reads it: `dev.id` (possibly `None` or empty),
`dev.state.name`, `dev.flow.value` (`none` when the `flow` attribute is
missing or `None`), and `dev.FriendlyName` (possibly `None`). -/
structure OsDevice where
  id : Option String
  stateName : String
  flow : Option Nat
  friendlyName : Option String
  deriving DecidableEq

/-- One entry of `AudioSwitcher._devices`: the dict
`{'id': dev.id, 'name': ...}` built by `_refresh_devices`. -/
structure AudioDevice where
  id : String
  name : String
  deriving DecidableEq

/-- The `skip_patterns` list of `_refresh_devices` (source lines 163-165). -/
def skipPatterns : List String :=
  ["Microphone", "Mic", "Input", "Line In", "Rear Green In",
   "Rear Blue In", "Front Green In", "Front Pink In", "Rear Pink In"]

/-- Tests whether `pat` matches at the head of the second list. -/
def leadMatch : List Char → List Char → Bool
  | [], _ => true
  | _ :: _, [] => false
  | p :: ps, c :: cs => p == c && leadMatch ps cs

/-- Python's `pat in s` on strings: `pat` occurs contiguously in `s`. -/
def occursIn (pat : List Char) : List Char → Bool
  | [] => leadMatch pat []
  | c :: cs => leadMatch pat (c :: cs) || occursIn pat cs

/-- Python's `str.lower()` on one character (the blacklist patterns are
pure ASCII, so ASCII lowering is what the comparison exercises). -/
def lowerChar (c : Char) : Char :=
  if 65 ≤ c.toNat ∧ c.toNat ≤ 90 then Char.ofNat (c.toNat + 32) else c

/-- Python's `str.lower()`, as a character list. -/
def lowerStr (s : String) : List Char :=
  s.data.map lowerChar

/-- The test `any(pattern.lower() in name.lower() for pattern in
skip_patterns)` (source line 166). -/
def blacklisted (name : String) : Bool :=
  skipPatterns.any fun pat => occursIn (lowerStr pat) (lowerStr name)

/-- The assignment `name = dev.FriendlyName or ""` (source line 162):
`None` and the empty string both yield the empty string. -/
def displayName (dev : OsDevice) : String :=
  dev.friendlyName.getD ""

/-- The inner flow test of `_refresh_devices` (source lines 158-160): skip
the device when the `flow` attribute is present, non-`None` and its value is
non-zero (`eRender = 0`). -/
def flowSkip (dev : OsDevice) : Bool :=
  match dev.flow with
  | some v => v != 0
  | none => false

/-- Python truthiness of `dev.id` (source line 157): a non-`None`,
non-empty string. -/
def idTruthy (dev : OsDevice) : Bool :=
  match dev.id with
  | some s => s != ""
  | none => false

/-- One iteration of the `for dev in all_devices` loop of
`_refresh_devices` (source lines 156-172), acting on the accumulated
`self._devices` list. -/
def refreshStep (acc : List AudioDevice) (dev : OsDevice) : List AudioDevice :=
  if dev.stateName == "Active" && idTruthy dev then
    if flowSkip dev then acc
    else if blacklisted (displayName dev) then acc
    else acc ++ [⟨(dev.id).getD "",
      if displayName dev = "" then "Device " ++ toString (acc.length + 1)
      else displayName dev⟩]
  else acc

/-- `AudioSwitcher._refresh_devices` when no OS call raises: the final value
of `self._devices` after the loop over all OS-reported devices. -/
def refreshDevices (devs : List OsDevice) : List AudioDevice :=
  devs.foldl refreshStep []

/-- The combined admission predicate of `_refresh_devices`: a device
contributes an entry iff its state is `'Active'`, its id is truthy, the flow
test does not skip it, and its display name is not blacklisted. -/
def keepDevice (dev : OsDevice) : Bool :=
  dev.stateName == "Active" && idTruthy dev && !flowSkip dev &&
    !blacklisted (displayName dev)

/-- The entry appended for an admitted device when `n` devices have already
been accepted (so the entry lands at 0-based position `n`). -/
def mkDevice (n : Nat) (dev : OsDevice) : AudioDevice :=
  ⟨(dev.id).getD "",
   if displayName dev = "" then "Device " ++ toString (n + 1)
   else displayName dev⟩

/-- The list built by the loop starting from `n` already-accepted devices. -/
def buildFrom (n : Nat) : List OsDevice → List AudioDevice
  | [] => []
  | dev :: rest =>
      if keepDevice dev then mkDevice n dev :: buildFrom (n + 1) rest
      else buildFrom n rest

theorem refreshStep_eq (acc : List AudioDevice) (dev : OsDevice) :
    refreshStep acc dev =
      if keepDevice dev then acc ++ [mkDevice acc.length dev] else acc := by
  unfold refreshStep keepDevice mkDevice
  cases h1 : (dev.stateName == "Active" && idTruthy dev) <;>
    cases h2 : flowSkip dev <;>
      cases h3 : blacklisted (displayName dev) <;>
        simp [h1, h2, h3]

theorem foldl_refreshStep (devs : List OsDevice) :
    ∀ acc : List AudioDevice,
      devs.foldl refreshStep acc = acc ++ buildFrom acc.length devs := by
  induction devs with
  | nil => intro acc; simp [buildFrom]
  | cons dev rest ih =>
      intro acc
      simp only [List.foldl_cons, refreshStep_eq, buildFrom]
      by_cases hk : keepDevice dev = true
      · rw [if_pos hk, if_pos hk, ih]
        simp [List.append_assoc]
      · rw [if_neg hk, if_neg hk, ih]

theorem refreshDevices_eq_buildFrom (devs : List OsDevice) :
    refreshDevices devs = buildFrom 0 devs := by
  unfold refreshDevices
  rw [foldl_refreshStep]
  rfl

theorem deviceName_ne_empty (s : String) : "Device " ++ s ≠ "" := by
  intro h
  have h2 : ("Device " ++ s).data = ([] : List Char) := by rw [h]
  cases s with
  | mk l =>
      have h3 : ("Device ".data ++ l) = ([] : List Char) := h2
      simp at h3

theorem keepDevice_spec (dev : OsDevice) (h : keepDevice dev = true) :
    dev.stateName = "Active" ∧ idTruthy dev = true ∧ flowSkip dev = false ∧
      blacklisted (displayName dev) = false := by
  simp only [keepDevice, Bool.and_eq_true, beq_iff_eq, Bool.not_eq_true'] at h
  exact ⟨h.1.1.1, h.1.1.2, h.1.2, h.2⟩

theorem idTruthy_getD (dev : OsDevice) (h : idTruthy dev = true) :
    (dev.id).getD "" ≠ "" := by
  unfold idTruthy at h
  cases hid : dev.id with
  | none => rw [hid] at h; exact absurd h (by simp)
  | some s =>
      rw [hid] at h
      simpa [bne_iff_ne] using h

theorem buildFrom_get? (devs : List OsDevice) :
    ∀ (n i : Nat) (d : AudioDevice), (buildFrom n devs).get? i = some d →
      ∃ src, src ∈ devs ∧ keepDevice src = true ∧ d = mkDevice (n + i) src := by
  induction devs with
  | nil => intro n i d h; simp [buildFrom] at h
  | cons dev rest ih =>
      intro n i d h
      by_cases hk : keepDevice dev = true
      · rw [buildFrom, if_pos hk] at h
        cases i with
        | zero =>
            rw [List.get?_cons_zero] at h
            refine ⟨dev, List.mem_cons_self _ _, hk, ?_⟩
            cases h
            rfl
        | succ i =>
            rw [List.get?_cons_succ] at h
            obtain ⟨src, hmem, hks, hd⟩ := ih (n + 1) i d h
            refine ⟨src, List.mem_cons_of_mem _ hmem, hks, ?_⟩
            rw [hd]
            congr 1
            omega
      · rw [buildFrom, if_neg hk] at h
        obtain ⟨src, hmem, hks, hd⟩ := ih n i d h
        exact ⟨src, List.mem_cons_of_mem _ hmem, hks, hd⟩

theorem buildFrom_mem (devs : List OsDevice) :
    ∀ (n : Nat) (d : AudioDevice), d ∈ buildFrom n devs →
      ∃ src, src ∈ devs ∧ keepDevice src = true ∧ ∃ m, d = mkDevice m src := by
  induction devs with
  | nil => intro n d h; simp [buildFrom] at h
  | cons dev rest ih =>
      intro n d h
      by_cases hk : keepDevice dev = true
      · rw [buildFrom, if_pos hk] at h
        rcases List.mem_cons.mp h with h0 | h1
        · exact ⟨dev, List.mem_cons_self _ _, hk, n, h0⟩
        · obtain ⟨src, hm, hks, m, hd⟩ := ih (n + 1) d h1
          exact ⟨src, List.mem_cons_of_mem _ hm, hks, m, hd⟩
      · rw [buildFrom, if_neg hk] at h
        obtain ⟨src, hm, hks, m, hd⟩ := ih n d h
        exact ⟨src, List.mem_cons_of_mem _ hm, hks, m, hd⟩

/-- C3: every device in the enumeration result has a non-empty name (a
device with an empty display name receives the synthetic name `"Device N"`,
`N` the 1-based position in the filtered result) and a non-empty, non-null
id. -/
theorem refresh_devices_wellformed (devs : List OsDevice) (i : Nat)
    (d : AudioDevice) (h : (refreshDevices devs).get? i = some d) :
    d.name ≠ "" ∧ d.id ≠ "" ∧
      ∃ src, src ∈ devs ∧ d.id = (src.id).getD "" ∧
        (displayName src = "" → d.name = "Device " ++ toString (i + 1)) ∧
        (displayName src ≠ "" → d.name = displayName src) := by
  rw [refreshDevices_eq_buildFrom] at h
  obtain ⟨src, hmem, hk, hd⟩ := buildFrom_get? devs 0 i d h
  rw [Nat.zero_add] at hd
  have hspec := keepDevice_spec src hk
  have hid : (src.id).getD "" ≠ "" := idTruthy_getD src hspec.2.1
  subst hd
  by_cases hdn : displayName src = ""
  · refine ⟨?_, hid, src, hmem, rfl, fun _ => ?_, fun hc => absurd hdn hc⟩
    · show (if displayName src = "" then "Device " ++ toString (i + 1)
        else displayName src) ≠ ""
      rw [if_pos hdn]
      exact deviceName_ne_empty _
    · show (if displayName src = "" then "Device " ++ toString (i + 1)
        else displayName src) = "Device " ++ toString (i + 1)
      rw [if_pos hdn]
  · refine ⟨?_, hid, src, hmem, rfl, fun hc => absurd hc hdn, fun _ => ?_⟩
    · show (if displayName src = "" then "Device " ++ toString (i + 1)
        else displayName src) ≠ ""
      rw [if_neg hdn]
      exact hdn
    · show (if displayName src = "" then "Device " ++ toString (i + 1)
        else displayName src) = displayName src
      rw [if_neg hdn]

theorem refresh_devices_wellformed_witness :
    (⟨"id1", "Speakers"⟩ : AudioDevice).name ≠ "" ∧
      (⟨"id1", "Speakers"⟩ : AudioDevice).id ≠ "" ∧
      ∃ src, src ∈ [(⟨some "id1", "Active", some 0, some "Speakers"⟩ : OsDevice)] ∧
        (⟨"id1", "Speakers"⟩ : AudioDevice).id = (src.id).getD "" ∧
        (displayName src = "" →
          (⟨"id1", "Speakers"⟩ : AudioDevice).name = "Device " ++ toString (0 + 1)) ∧
        (displayName src ≠ "" →
          (⟨"id1", "Speakers"⟩ : AudioDevice).name = displayName src) :=
  refresh_devices_wellformed
    [⟨some "id1", "Active", some 0, some "Speakers"⟩] 0 ⟨"id1", "Speakers"⟩ (by decide)

theorem buildFrom_filter_blacklist (devs : List OsDevice) :
    ∀ n : Nat,
      buildFrom n (devs.filter fun dv => !blacklisted (displayName dv)) =
        buildFrom n devs := by
  induction devs with
  | nil => intro n; rfl
  | cons dev rest ih =>
      intro n
      by_cases hb : blacklisted (displayName dev) = true
      · have hstep : List.filter (fun dv => !blacklisted (displayName dv)) (dev :: rest)
            = List.filter (fun dv => !blacklisted (displayName dv)) rest := by
          simp [List.filter_cons, hb]
        have hkf : keepDevice dev = false := by simp [keepDevice, hb]
        have hr : buildFrom n (dev :: rest) = buildFrom n rest := by
          simp only [buildFrom, hkf, Bool.false_eq_true, if_false]
        rw [hstep, ih, hr]
      · have hb' : (!blacklisted (displayName dev)) = true := by simp [hb]
        have hstep : List.filter (fun dv => !blacklisted (displayName dv)) (dev :: rest)
            = dev :: List.filter (fun dv => !blacklisted (displayName dv)) rest := by
          simp [List.filter_cons, hb']
        rw [hstep]
        simp only [buildFrom]
        by_cases hk : keepDevice dev = true
        · rw [if_pos hk, if_pos hk, ih]
        · rw [if_neg hk, if_neg hk, ih]

/-- C4: a device whose display name case-insensitively contains one of the
blacklist substrings contributes nothing to the enumeration result:
removing all such devices from the OS-reported list leaves the result
unchanged. -/
theorem blacklist_excluded (devs : List OsDevice) :
    refreshDevices devs =
      refreshDevices (devs.filter fun dv => !blacklisted (displayName dv)) := by
  rw [refreshDevices_eq_buildFrom, refreshDevices_eq_buildFrom,
    buildFrom_filter_blacklist]

/-- C5: a device appears in the enumeration result only if its connection
state is `'Active'` and its data-flow direction, when reported, is render
(`0`); devices whose flow is capture (`1`) or both (`2`) are excluded. -/
theorem flow_state_filter :
    (∀ (devs : List OsDevice) (d : AudioDevice), d ∈ refreshDevices devs →
      ∃ src, src ∈ devs ∧ d.id = (src.id).getD "" ∧ src.stateName = "Active" ∧
        ∀ f, src.flow = some f → f = 0)
    ∧ (∀ src : OsDevice, src.flow = some 1 ∨ src.flow = some 2 →
        keepDevice src = false) := by
  constructor
  · intro devs d h
    rw [refreshDevices_eq_buildFrom] at h
    obtain ⟨src, hm, hk, m, hd⟩ := buildFrom_mem devs 0 d h
    have hspec := keepDevice_spec src hk
    refine ⟨src, hm, by subst hd; rfl, hspec.1, ?_⟩
    intro f hf
    have hfs := hspec.2.2.1
    simp only [flowSkip, hf] at hfs
    simpa [bne] using hfs
  · intro src hf
    rcases hf with h1 | h2
    · simp [keepDevice, flowSkip, h1]
    · simp [keepDevice, flowSkip, h2]

theorem flow_state_filter_witness :
    (∃ src, src ∈ [(⟨some "id1", "Active", some 0, some "Speakers"⟩ : OsDevice)] ∧
        (⟨"id1", "Speakers"⟩ : AudioDevice).id = (src.id).getD "" ∧
        src.stateName = "Active" ∧ ∀ f, src.flow = some f → f = 0)
    ∧ keepDevice ⟨some "id2", "Active", some 1, some "USB Audio"⟩ = false :=
  ⟨flow_state_filter.1 [⟨some "id1", "Active", some 0, some "Speakers"⟩]
      ⟨"id1", "Speakers"⟩ (by decide),
   flow_state_filter.2 ⟨some "id2", "Active", some 1, some "USB Audio"⟩ (Or.inl rfl)⟩

/-- The `for dev in all_devices` loop of `_refresh_devices` inside its
`try` block, with per-device failure made explicit: a `none` entry stands
for a device whose attribute reads raise, which aborts the loop (the
exception is caught by the surrounding `except`), leaving the entries
already appended to `self._devices` in place. -/
def refreshLoop : List (Option OsDevice) → List AudioDevice → List AudioDevice
  | [], acc => acc
  | none :: _, acc => acc
  | some dev :: rest, acc => refreshLoop rest (refreshStep acc dev)

/-- Full `AudioSwitcher._refresh_devices` (source lines 151-174): the value
of `self._devices` afterwards, given the outcome of
`AudioUtilities.GetAllDevices()` (`error` when that call itself raises). -/
def refreshDevicesExc : Except Unit (List (Option OsDevice)) → List AudioDevice
  | .error _ => []
  | .ok devs => refreshLoop devs []

/-- An enumeration fails (raises at some point) when the device query itself
raises or some device's processing raises. -/
def enumFails : Except Unit (List (Option OsDevice)) → Bool
  | .error _ => true
  | .ok devs => devs.any fun o => o.isNone

theorem refreshLoop_eq (devs : List (Option OsDevice)) :
    ∀ acc : List AudioDevice,
      refreshLoop devs acc =
        List.foldl refreshStep acc (List.filterMap id (devs.takeWhile Option.isSome)) := by
  induction devs with
  | nil => intro acc; rfl
  | cons o rest ih =>
      intro acc
      cases o with
      | none => rfl
      | some dev =>
          show refreshLoop rest (refreshStep acc dev) = _
          rw [ih]
          rfl

/-- C6 counterexample: an enumeration that raises while processing the
second device (after the first was accepted) is a failing enumeration, yet
the result is a non-empty partial list, not the empty sequence the claim
requires. -/
theorem enum_failure_counterexample :
    enumFails (Except.ok
        [some ⟨some "id1", "Active", some 0, some "Speakers"⟩, none]) = true ∧
      refreshDevicesExc (Except.ok
        [some ⟨some "id1", "Active", some 0, some "Speakers"⟩, none])
        = [⟨"id1", "Speakers"⟩] :=
  ⟨rfl, rfl⟩

/-- C6 amended: the error is never propagated (the embedding is total); if
the device query itself fails the result is empty; if a failure occurs while
processing the device list, the devices accepted before the failure remain
in the result (a partial list). -/
theorem enum_failure_amended :
    refreshDevicesExc (Except.error ()) = [] ∧
      ∀ devs : List (Option OsDevice),
        refreshDevicesExc (Except.ok devs) =
          refreshDevices (List.filterMap id (devs.takeWhile Option.isSome)) :=
  ⟨rfl, fun devs => refreshLoop_eq devs []⟩

/-- A parsed JSON value, the result type of `json.load`. -/
inductive JValue where
  | jnull : JValue
  | jbool : Bool → JValue
  | jnum : Int → JValue
  | jstr : String → JValue
  | jarr : List JValue → JValue
  | jobj : List (String × JValue) → JValue

/-- Python truthiness of a JSON value (`not fav1`, source line 207): null,
false, zero, and empty containers are falsy.  A JSON null is loaded as
Python `None`, hence falsy. -/
def truthyV : JValue → Bool
  | .jnull => false
  | .jbool b => b
  | .jnum n => n != 0
  | .jstr s => s != ""
  | .jarr xs => !xs.isEmpty
  | .jobj fs => !fs.isEmpty

/-- Python truthiness of a `dict.get` result: a missing key gives `None`,
which is falsy. -/
def truthyOpt : Option JValue → Bool
  | none => false
  | some v => truthyV v

/-- Python `dict.get(k)` on the in-memory config dict (insertion order,
unique keys in any dict produced by `json.load` or literal construction). -/
def dictGet : List (String × JValue) → String → Option JValue
  | [], _ => none
  | kv :: rest, k => if kv.1 = k then some kv.2 else dictGet rest k

/-- Python `d[k] = v` on a dict: overwrite in place if the key exists
(keeping its position), else append. -/
def setKey : List (String × JValue) → String → JValue → List (String × JValue)
  | [], k, v => [(k, v)]
  | kv :: rest, k, v =>
      if kv.1 = k then (k, v) :: rest else kv :: setKey rest k v

/-- Python `current == fav` (source line 212), where `current` is the
optional string from `get_default_device_id` and `fav` the `dict.get`
result: equal strings compare equal, `None == None` is true, and any
cross-type comparison is false. -/
def pyEqCur (current : Option String) (fav : Option JValue) : Bool :=
  match current, fav with
  | some s, some (.jstr t) => s == t
  | none, some .jnull => true
  | none, none => true
  | _, _ => false

/-- `AudioSwitcher.toggle_favorites` (source lines 202-215): returns the
device id value passed to `set_default_device`, or `none` when the method
returns without activating anything.  `current` is the result of
`get_default_device_id` (`none` on failure). -/
def toggle_favorites (config : List (String × JValue)) (current : Option String) :
    Option JValue :=
  let fav1 := dictGet config "favorite1"
  let fav2 := dictGet config "favorite2"
  if !truthyOpt fav1 || !truthyOpt fav2 then none
  else if pyEqCur current fav1 then fav2
  else fav1

/-- C1: with both favorites set (holding non-empty device-id strings),
`toggle_favorites` activates favorite2 exactly when the current default id
equals favorite1, and favorite1 in every other case (current equal to
favorite2, a third id, or none). -/
theorem toggle_policy (config : List (String × JValue)) (current : Option String)
    (a b : String)
    (h1 : dictGet config "favorite1" = some (JValue.jstr a))
    (h2 : dictGet config "favorite2" = some (JValue.jstr b))
    (ha : a ≠ "") (hb : b ≠ "") :
    toggle_favorites config current =
      some (if current = some a then JValue.jstr b else JValue.jstr a) := by
  have ta : truthyV (JValue.jstr a) = true := by
    simp [truthyV, bne_iff_ne, ha]
  have tb : truthyV (JValue.jstr b) = true := by
    simp [truthyV, bne_iff_ne, hb]
  simp only [toggle_favorites, h1, h2, truthyOpt, ta, tb, Bool.not_true,
    Bool.or_self, Bool.false_eq_true, if_false]
  cases current with
  | none => simp [pyEqCur]
  | some s =>
      by_cases hs : s = a
      · simp [pyEqCur, hs]
      · simp [pyEqCur, hs]

theorem toggle_policy_witness :
    toggle_favorites [("favorite1", JValue.jstr "A"), ("favorite2", JValue.jstr "B")]
        (some "A") = some (JValue.jstr "B") := by
  have h := toggle_policy
    [("favorite1", JValue.jstr "A"), ("favorite2", JValue.jstr "B")]
    (some "A") "A" "B" rfl rfl (by decide) (by decide)
  simpa using h

/-- C2: if either favorite is unset (its key missing, or null in the
config), `toggle_favorites` performs no activation, whatever the current
default id is. -/
theorem toggle_noop_unset (config : List (String × JValue)) (current : Option String)
    (h : dictGet config "favorite1" = none ∨
         dictGet config "favorite1" = some JValue.jnull ∨
         dictGet config "favorite2" = none ∨
         dictGet config "favorite2" = some JValue.jnull) :
    toggle_favorites config current = none := by
  rcases h with h | h | h | h <;>
    simp [toggle_favorites, h, truthyOpt, truthyV]

theorem toggle_noop_unset_witness :
    toggle_favorites [] none = none :=
  toggle_noop_unset [] none (Or.inl rfl)

/-- The state of the preferences file as `load_config` encounters it:
absent (`os.path.exists` false), unreadable (`open` or the existence check
raises), or present with the outcome of `json.load` on its text (`error`
when the text is not valid JSON, e.g. an empty file). -/
inductive FileState where
  | missing : FileState
  | unreadable : FileState
  | content : Except Unit JValue → FileState

/-- The fallback dict `{'favorite1': None, 'favorite2': None}` returned by
`load_config` (source line 78). -/
def defaultConfig : JValue :=
  JValue.jobj [("favorite1", JValue.jnull), ("favorite2", JValue.jnull)]

/-- `load_config` (source lines 70-78): returns whatever `json.load`
parsed when the file exists, is readable and parses; in every failure path
the exception is swallowed and the both-unset default is returned. -/
def loadConfig : FileState → JValue
  | .missing => defaultConfig
  | .unreadable => defaultConfig
  | .content (.error _) => defaultConfig
  | .content (.ok v) => v

/-- `save_config` (source lines 81-87): on a successful write the file
afterwards holds text that `json.load` parses back to the dumped value
(`json.dump` with string keys round-trips); write failures are swallowed
and, for this model, leave the previous state (no claim inspects a failed
write). -/
def saveConfig (v : JValue) (fs : FileState) (writeOk : Bool) : FileState :=
  if writeOk then FileState.content (Except.ok v) else fs

/-- The in-memory update of `AudioSwitcher.set_favorite` (source lines
217-220): `self._config[f'favorite{slot}'] = device_id`. -/
def setFavorite (config : List (String × JValue)) (slot : Nat) (x : String) :
    List (String × JValue) :=
  setKey config ("favorite" ++ toString slot) (JValue.jstr x)

/-- Follows the spec's words (section 6), for comparison with the code: a
well-formed persisted preferences value is a JSON object whose fields are
only `favorite1` and `favorite2`, each a string or null. -/
def specWellFormedPrefs : JValue → Bool
  | .jobj fields =>
      fields.all fun kv =>
        (kv.1 == "favorite1" || kv.1 == "favorite2") &&
          (match kv.2 with
           | .jstr _ => true
           | .jnull => true
           | _ => false)
  | _ => false

/-- A key is unset in a config dict when it is absent or null. -/
def unsetAt (fields : List (String × JValue)) (k : String) : Bool :=
  match dictGet fields k with
  | none => true
  | some .jnull => true
  | some _ => false

/-- Follows the spec's words: a preferences value with both favorites
unset. -/
def bothUnsetPrefs : JValue → Bool
  | .jobj fields => unsetAt fields "favorite1" && unsetAt fields "favorite2"
  | _ => false

/-- C7 counterexample: a file whose text parses as the JSON array `[]` is
malformed preferences content (not a preferences object at all), yet
`load_config` returns that array unchanged — not a preferences value with
both favorites unset. -/
theorem load_malformed_counterexample :
    loadConfig (FileState.content (Except.ok (JValue.jarr []))) = JValue.jarr [] ∧
      specWellFormedPrefs (JValue.jarr []) = false ∧
      bothUnsetPrefs (loadConfig (FileState.content (Except.ok (JValue.jarr [])))) = false :=
  ⟨rfl, rfl, rfl⟩

/-- C7 amended: `load_config` never raises (the embedding is total); on a
missing file, an unreadable file, or content that is not valid JSON
(including an empty file) it returns the both-unset default; content that
parses as JSON is returned as parsed, without shape validation. -/
theorem load_resilience_amended :
    (∀ fs : FileState,
        fs = FileState.missing ∨ fs = FileState.unreadable ∨
          fs = FileState.content (Except.error ()) →
        loadConfig fs = defaultConfig)
    ∧ bothUnsetPrefs defaultConfig = true
    ∧ ∀ v : JValue, loadConfig (FileState.content (Except.ok v)) = v := by
  refine ⟨?_, rfl, fun v => rfl⟩
  rintro fs (rfl | rfl | rfl) <;> rfl

theorem load_resilience_amended_witness :
    loadConfig FileState.missing = defaultConfig :=
  load_resilience_amended.1 FileState.missing (Or.inl rfl)

theorem dictGet_setKey_same (l : List (String × JValue)) (k : String) (v : JValue) :
    dictGet (setKey l k v) k = some v := by
  induction l with
  | nil => simp [setKey, dictGet]
  | cons kv rest ih =>
      by_cases hk : kv.1 = k
      · simp [setKey, hk, dictGet]
      · simp [setKey, hk, dictGet, ih]

theorem dictGet_setKey_other (k : String) (v : JValue) (k' : String) (hk : k' ≠ k) :
    ∀ l : List (String × JValue), dictGet (setKey l k v) k' = dictGet l k' := by
  intro l
  induction l with
  | nil =>
      show dictGet [(k, v)] k' = dictGet [] k'
      simp [dictGet, if_neg (Ne.symm hk)]
  | cons kv rest ih =>
      by_cases h1 : kv.1 = k
      · have h2 : ¬ kv.1 = k' := by rw [h1]; exact Ne.symm hk
        simp [setKey, h1, dictGet, if_neg (Ne.symm hk), if_neg h2]
      · have hs : setKey (kv :: rest) k v = kv :: setKey rest k v := by
          simp [setKey, h1]
        rw [hs]
        by_cases h2 : kv.1 = k'
        · simp [dictGet, h2]
        · simp [dictGet, h2, ih]

/-- C8: if the write succeeds, loading after saving returns the saved
preferences value; in particular `set_favorite(slot, X)` followed by
`load()` yields a config whose `favorite{slot}` key holds `X`. -/
theorem save_load_roundtrip :
    (∀ (p : JValue) (fs : FileState), specWellFormedPrefs p = true →
        loadConfig (saveConfig p fs true) = p)
    ∧ ∀ (config : List (String × JValue)) (slot : Nat) (x : String) (fs : FileState),
        loadConfig (saveConfig (JValue.jobj (setFavorite config slot x)) fs true)
            = JValue.jobj (setFavorite config slot x)
          ∧ dictGet (setFavorite config slot x) ("favorite" ++ toString slot)
            = some (JValue.jstr x) := by
  constructor
  · intro p fs _h
    rfl
  · intro config slot x fs
    exact ⟨rfl, dictGet_setKey_same config _ _⟩

theorem save_load_roundtrip_witness :
    loadConfig (saveConfig defaultConfig FileState.missing true) = defaultConfig ∧
      (loadConfig (saveConfig (JValue.jobj (setFavorite [] 1 "X")) FileState.missing true)
          = JValue.jobj (setFavorite [] 1 "X")
        ∧ dictGet (setFavorite [] 1 "X") ("favorite" ++ toString 1)
          = some (JValue.jstr "X")) :=
  ⟨save_load_roundtrip.1 defaultConfig FileState.missing rfl,
   save_load_roundtrip.2 [] 1 "X" FileState.missing⟩

/-- C10: `set_favorite` changes only the key `favorite{slot}` of the
in-memory config: every other key, in particular the other favorite slot,
is unchanged. -/
theorem set_favorite_frame (config : List (String × JValue)) (slot : Nat)
    (x : String) (k : String) (hk : k ≠ "favorite" ++ toString slot) :
    dictGet (setFavorite config slot x) k = dictGet config k :=
  dictGet_setKey_other ("favorite" ++ toString slot) (JValue.jstr x) k hk config

theorem set_favorite_frame_witness :
    dictGet (setFavorite [("favorite2", JValue.jstr "B")] 1 "A") "favorite2"
      = dictGet [("favorite2", JValue.jstr "B")] "favorite2" :=
  set_favorite_frame [("favorite2", JValue.jstr "B")] 1 "A" "favorite2" (by decide)

/-- The `try ... except Exception: pass` around one per-role
`SetDefaultEndpoint` call (source lines 134-137): a raise from the call is
caught and the loop body completes normally. -/
def tryExceptPass (x : Except Unit Unit) : Except Unit Unit :=
  match x with
  | .ok u => .ok u
  | .error _ => .ok ()

/-- The `for role in range(3)` loop of `set_default_endpoint`: runs the
caught per-role call for each role in order, recording every attempted
`(deviceId, role)` pair; an exception escaping a loop body (impossible here,
each body is caught) would abort the loop and propagate. -/
def rolesAttempt (call : String → Nat → Except Unit Unit) (deviceId : String) :
    List Nat → List (String × Nat) → Except Unit (List (String × Nat))
  | [], log => .ok log
  | role :: rest, log =>
      match tryExceptPass (call deviceId role) with
      | .ok _ => rolesAttempt call deviceId rest (log ++ [(deviceId, role)])
      | .error e => .error e

/-- `PolicyConfigClient.set_default_endpoint` (source lines 130-137):
given the `_policy_config` interface (`none` when instantiation failed) and
a device id, returns the trace of attempted per-role set calls, or an
escaping exception.  The interface itself is modelled by its one used
method, `SetDefaultEndpoint`, as a function from `(deviceId, role)` to a
raise-or-return outcome. -/
def set_default_endpoint
    (policyConfig : Option (String → Nat → Except Unit Unit))
    (deviceId : String) : Except Unit (List (String × Nat)) :=
  match policyConfig with
  | some call => rolesAttempt call deviceId [0, 1, 2] []
  | none => .ok []

/-- `PolicyConfigClient._init_policy_config` (source lines 97-128): the
`_policy_config` attribute after construction, given the outcome of
`comtypes.CoCreateInstance` — the located interface, or `None` when
locating or instantiating it raised. -/
def initPolicyConfig
    (coCreate : Except Unit (String → Nat → Except Unit Unit)) :
    Option (String → Nat → Except Unit Unit) :=
  match coCreate with
  | .ok p => some p
  | .error _ => none

theorem tryExceptPass_ok (x : Except Unit Unit) : tryExceptPass x = .ok () := by
  cases x with
  | ok u => cases u; rfl
  | error e => rfl

/-- C9: for every device id and every behaviour of the per-role OS call,
all three roles (0, 1, 2) are attempted in order and no exception escapes,
even when individual calls fail; and when the policy-configuration
interface could not be located or instantiated, `set_default_endpoint` is a
no-op that attempts nothing and does not raise. -/
theorem set_roles_best_effort (deviceId : String) :
    (∀ call : String → Nat → Except Unit Unit,
        set_default_endpoint (some call) deviceId
          = .ok [(deviceId, 0), (deviceId, 1), (deviceId, 2)])
    ∧ set_default_endpoint none deviceId = .ok []
    ∧ ∀ e : Unit, set_default_endpoint (initPolicyConfig (.error e)) deviceId = .ok [] := by
  refine ⟨?_, rfl, fun e => rfl⟩
  intro call
  show rolesAttempt call deviceId [0, 1, 2] [] = _
  simp [rolesAttempt, tryExceptPass_ok]
